import Mathlib

/-!
Verification development for the blog application (`application.py`, the
final snapshot of the repository; `forms.py` supplies the form field sets).

HTML rich text is embedded as a list of tokens (text runs, opening tags
with their attribute lists, closing tags).  The handlers of
`application.py` are embedded as pure functions from the current identity,
the validated form input and the database state to an outcome paired with
the successor state.  The database unique constraints (`user.email`,
`blogpost.title`) and foreign-key constraints declared by the schema are
part of the storage model: a write that violates one raises an
IntegrityError, embedded as the `serverError` outcome with the state
unchanged, exactly as an unhandled exception leaves the handler.
-/

/-- An HTML attribute: a name and its value. -/
structure Attr where
  name : String
  value : String
  deriving DecidableEq, Repr

/-- A token of an HTML document: a text run, an opening tag with its
attributes, or a closing tag. -/
inductive Tok where
  | textTok (s : String)
  | openTag (name : String) (attrs : List Attr)
  | closeTag (name : String)
  deriving DecidableEq, Repr

/-- The allow-listed tag set of `application.py` (the `Tags` set handed to
the `Sanitizer` configuration). -/
def Tags : List String :=
  ["a", "h1", "h2", "h3", "strong", "em", "p", "ul", "ol",
   "li", "br", "sub", "sup", "hr", "img"]

/-- The allow-listed attributes per tag of the `Sanitizer` configuration:
`a` keeps href, name, target, title, id, rel; `img` keeps alt, src; every
other tag keeps no attributes. -/
def allowedAttrs (tag : String) : List String :=
  if tag = "a" then ["href", "name", "target", "title", "id", "rel"]
  else if tag = "img" then ["alt", "src"]
  else []

/-- Modelled from the spec: the traversal of the external `html_sanitizer`
library as configured in `application.py` (§4.1 of the spec).  The first
argument is `some m` while inside a stripped `script`/`style` element
(whose content is removed, not kept as text) and `none` otherwise; a kept
tag retains only its allow-listed attributes, every other tag is
stripped. -/
def sanitizeAux : Option String → List Tok → List Tok
  | some _, [] => []
  | some m, Tok.closeTag n :: rest =>
      if n = m then sanitizeAux none rest else sanitizeAux (some m) rest
  | some m, _ :: rest => sanitizeAux (some m) rest
  | none, [] => []
  | none, Tok.textTok s :: rest => Tok.textTok s :: sanitizeAux none rest
  | none, Tok.openTag n attrs :: rest =>
      if n ∈ Tags then
        Tok.openTag n (attrs.filter (fun a => (allowedAttrs n).contains a.name))
          :: sanitizeAux none rest
      else if n = "script" ∨ n = "style" then
        sanitizeAux (some n) rest
      else
        sanitizeAux none rest
  | none, Tok.closeTag n :: rest =>
      if n ∈ Tags then Tok.closeTag n :: sanitizeAux none rest
      else sanitizeAux none rest

/-- Modelled from the spec: the `sanitizer.sanitize` entry point of
`application.py` — keep only allow-listed tags carrying only allow-listed
attributes, strip every other tag and strip embedded script/style
content entirely. -/
def sanitizeToks (l : List Tok) : List Tok := sanitizeAux none l

/-- A token is in sanitized form: any tag it carries is allow-listed and
carries only allow-listed attributes. -/
def tokOK : Tok → Bool
  | Tok.textTok _ => true
  | Tok.openTag n attrs =>
      decide (n ∈ Tags) && attrs.all (fun a => (allowedAttrs n).contains a.name)
  | Tok.closeTag n => decide (n ∈ Tags)

theorem sanitizeAux_all_tokOK (mode : Option String) (l : List Tok) :
    (sanitizeAux mode l).all tokOK = true := by
  induction l generalizing mode with
  | nil => cases mode <;> simp [sanitizeAux]
  | cons t rest ih =>
    cases mode with
    | some m =>
      cases t with
      | textTok s => simpa [sanitizeAux] using ih (some m)
      | openTag n attrs => simpa [sanitizeAux] using ih (some m)
      | closeTag n =>
        by_cases h : n = m
        · simpa [sanitizeAux, h] using ih none
        · simpa [sanitizeAux, h] using ih (some m)
    | none =>
      cases t with
      | textTok s => simpa [sanitizeAux, tokOK] using ih none
      | openTag n attrs =>
        by_cases h : n ∈ Tags
        · simp only [sanitizeAux, if_pos h, List.all_cons, ih none,
            Bool.and_true, tokOK]
          simp [h, List.all_filter]
        · by_cases hs : n = "script" ∨ n = "style"
          · simpa [sanitizeAux, h, hs] using ih (some n)
          · simpa [sanitizeAux, h, hs] using ih none
      | closeTag n =>
        by_cases h : n ∈ Tags
        · simp [sanitizeAux, h, tokOK, ih none]
        · simpa [sanitizeAux, h] using ih none

theorem sanitizeToks_all_tokOK (l : List Tok) :
    (sanitizeToks l).all tokOK = true :=
  sanitizeAux_all_tokOK none l

theorem sanitizeToks_of_all_tokOK (l : List Tok) (h : l.all tokOK = true) :
    sanitizeToks l = l := by
  unfold sanitizeToks
  induction l with
  | nil => simp [sanitizeAux]
  | cons t rest ih =>
    simp only [List.all_cons, Bool.and_eq_true] at h
    obtain ⟨ht, hrest⟩ := h
    cases t with
    | textTok s => simp [sanitizeAux, ih hrest]
    | openTag n attrs =>
      simp only [tokOK, Bool.and_eq_true, decide_eq_true_eq] at ht
      obtain ⟨hn, hattrs⟩ := ht
      simp only [sanitizeAux, if_pos hn, ih hrest]
      congr 1
      congr 1
      exact List.filter_eq_self.mpr (by simpa [List.all_eq_true] using hattrs)
    | closeTag n =>
      simp only [tokOK, decide_eq_true_eq] at ht
      simp [sanitizeAux, ht, ih hrest]

/-- The sanitizer is idempotent on token lists. -/
theorem sanitizeToks_idem (l : List Tok) :
    sanitizeToks (sanitizeToks l) = sanitizeToks l :=
  sanitizeToks_of_all_tokOK _ (sanitizeToks_all_tokOK l)

/-- Whether a token list contains an opening `script` tag. -/
def hasScript (l : List Tok) : Bool :=
  l.any (fun t =>
    match t with
    | Tok.openTag n _ => n = "script"
    | _ => false)

theorem sanitizeToks_no_script (l : List Tok) :
    hasScript (sanitizeToks l) = false := by
  have hall := sanitizeToks_all_tokOK l
  simp only [List.all_eq_true] at hall
  simp only [hasScript, List.any_eq_false]
  intro t ht
  have := hall t ht
  cases t with
  | textTok s => simp
  | openTag n attrs =>
    simp only [tokOK, Bool.and_eq_true, decide_eq_true_eq] at this
    have hns : n ≠ "script" := by
      intro hh
      rw [hh] at this
      exact absurd this.1 (by decide)
    simp [hns]
  | closeTag n => simp

/-! ## Data model (`application.py`, tables `user`, `blogpost`, `comments`) -/

/-- A row of the `user` table. -/
structure User where
  id : Nat
  email : String
  password : String
  name : String
  deriving DecidableEq, Repr

/-- A row of the `blogpost` table.  `author_id` is the foreign key into
the `user` table; `body` is the stored HTML. -/
structure BlogPost where
  id : Nat
  title : String
  subtitle : String
  date : String
  body : List Tok
  img_url : String
  author_id : Nat
  deriving DecidableEq, Repr

/-- A row of the `comments` table, with foreign keys into `user` and
`blogpost`. -/
structure Comment where
  id : Nat
  text : List Tok
  author_id : Nat
  post_id : Nat
  deriving DecidableEq, Repr

/-- The database state: the three tables, rows in insertion order. -/
structure DBState where
  users : List User
  posts : List BlogPost
  comments : List Comment
  deriving DecidableEq, Repr

/-- The current identity resolved by flask_login: either anonymous or an
authenticated user, carried by its `user.id`. -/
inductive Identity where
  | anonymous
  | user (uid : Nat)
  deriving DecidableEq, Repr

/-- The outcome a handler produces.  `http403` embeds `abort(403)`;
`http404` is the NotFound outcome (available to the embedding, produced by
no handler of the source); `redirectLogin` carries the flashed message;
`renderPost` embeds rendering `post.html` with the (possibly absent)
requested post; `renderForm` embeds re-rendering a form page;
`serverError` embeds an exception the handler does not catch. -/
inductive Outcome where
  | http403
  | http404
  | redirectHome
  | redirectLogin (flash : String)
  | redirectShowPost (pid : Nat)
  | renderPost (post : Option BlogPost)
  | renderForm (template : String)
  | serverError (msg : String)
  deriving DecidableEq, Repr

/-- Autoincrement primary key: one more than the largest id in use. -/
def freshId (ids : List Nat) : Nat := ids.foldr max 0 + 1

/-- The validated fields of `PostForm` (`forms.py`): title, subtitle,
image URL and CKEditor body.  The final `PostForm` has no author field. -/
structure PostForm where
  title : String
  subtitle : String
  img_url : String
  body : List Tok
  deriving DecidableEq, Repr

/-- The validated fields of `RegisterForm` (`forms.py`). -/
structure RegisterForm where
  email : String
  password : String
  name : String
  deriving DecidableEq, Repr

/-- Modelled from the spec: `werkzeug.security.generate_password_hash`
with method `pbkdf2` (external library, §4.2 of the spec) — a salted,
one-way credential derivation whose output is a tagged credential string,
never the plaintext itself. -/
def generate_password_hash (password : String) : String :=
  "pbkdf2:sha256$salt$" ++ password ++ "$digest"

/-- The `admin_only` decorator of `application.py`: anonymous identity
aborts with 403; an authenticated identity whose id is not 1 aborts with
403; otherwise the wrapped route runs with the current user available. -/
def admin_only (f : Nat → DBState → Outcome × DBState) (who : Identity)
    (s : DBState) : Outcome × DBState :=
  match who with
  | Identity.anonymous => (Outcome.http403, s)
  | Identity.user uid =>
      if uid ≠ 1 then (Outcome.http403, s) else f uid s

/-- Committing a new `blogpost` row: the unique constraint on `title`
rejects a duplicate (an IntegrityError the handler does not catch),
otherwise the row is appended. -/
def insertPost (p : BlogPost) (s : DBState) : Except String DBState :=
  if s.posts.any (fun q => q.title = p.title) then
    Except.error "IntegrityError UNIQUE constraint failed blogpost.title"
  else
    Except.ok { s with posts := s.posts ++ [p] }

/-- The `add_new_post` route of `application.py` on a validated
submission: guarded by `admin_only`; sanitizes the body; builds the row
with `author_id = current_user.id` and the current date; commits and
redirects home. -/
def add_new_post (who : Identity) (form : PostForm) (today : String)
    (s : DBState) : Outcome × DBState :=
  admin_only (fun uid s =>
    let clean_data := sanitizeToks form.body
    let new_post : BlogPost :=
      { id := freshId (s.posts.map BlogPost.id)
        title := form.title
        subtitle := form.subtitle
        date := today
        body := clean_data
        img_url := form.img_url
        author_id := uid }
    match insertPost new_post s with
    | Except.ok s2 => (Outcome.redirectHome, s2)
    | Except.error e => (Outcome.serverError e, s)) who s

/-- The `edit_post` route of `application.py` on a validated submission:
guarded by `admin_only`; loads the post by id (a missing row makes the
field assignments raise on `None` — an uncaught AttributeError);
overwrites title, subtitle, sanitized body and image URL; committing a
title that duplicates another post's raises the unique constraint. -/
def edit_post (who : Identity) (post_id : Nat) (form : PostForm)
    (s : DBState) : Outcome × DBState :=
  admin_only (fun _ s =>
    match s.posts.find? (fun p => p.id = post_id) with
    | none => (Outcome.serverError "AttributeError NoneType has no attribute title", s)
    | some _ =>
        if s.posts.any (fun q => q.id ≠ post_id ∧ q.title = form.title) then
          (Outcome.serverError "IntegrityError UNIQUE constraint failed blogpost.title", s)
        else
          let posts2 := s.posts.map (fun p =>
            if p.id = post_id then
              { p with title := form.title
                       subtitle := form.subtitle
                       body := sanitizeToks form.body
                       img_url := form.img_url }
            else p)
          (Outcome.redirectShowPost post_id, { s with posts := posts2 })) who s

/-- The `delete_post` route of `application.py`: guarded by `admin_only`;
loads the post by id (`db.session.delete(None)` raises an uncaught error
when absent); deleting a post still referenced by comments violates the
declared foreign-key constraint `comments.post_id -> blogpost.id` (no
cascade is configured), raising on commit; otherwise the row is removed
and the handler redirects home. -/
def delete_post (who : Identity) (post_id : Nat) (s : DBState) :
    Outcome × DBState :=
  admin_only (fun _ s =>
    match s.posts.find? (fun p => p.id = post_id) with
    | none => (Outcome.serverError "UnmappedInstanceError delete None", s)
    | some p =>
        if s.comments.any (fun c => c.post_id = p.id) then
          (Outcome.serverError "IntegrityError FOREIGN KEY constraint failed comments.post_id", s)
        else
          (Outcome.redirectHome,
           { s with posts := s.posts.filter (fun q => ¬ q.id = post_id) })) who s

/-- A request to the `show_post` route: a plain GET, or a validated
`CommentForm` submission carrying the comment text. -/
inductive ShowPostReq where
  | get
  | postComment (text : List Tok)
  deriving DecidableEq, Repr

/-- The `show_post` route of `application.py`: loads the requested post;
a GET renders it (even when absent no 404 is produced); a validated
comment submission by an unauthenticated identity flashes and redirects
to login; an authenticated one gets the sanitized text persisted with
`author_id = current_user.id` and `post_id = requested_post.id` (raising
on `None` when the post is absent). -/
def show_post (who : Identity) (post_id : Nat) (req : ShowPostReq)
    (s : DBState) : Outcome × DBState :=
  let requested_post := s.posts.find? (fun p => p.id = post_id)
  match req with
  | ShowPostReq.get => (Outcome.renderPost requested_post, s)
  | ShowPostReq.postComment text =>
      match who with
      | Identity.anonymous =>
          (Outcome.redirectLogin "You need to login or register to comment.", s)
      | Identity.user uid =>
          let clean_data := sanitizeToks text
          match requested_post with
          | none => (Outcome.serverError "AttributeError NoneType has no attribute id", s)
          | some p =>
              let new_comment : Comment :=
                { id := freshId (s.comments.map Comment.id)
                  text := clean_data
                  author_id := uid
                  post_id := p.id }
              (Outcome.redirectShowPost post_id,
               { s with comments := s.comments ++ [new_comment] })

/-- The `register` route of `application.py` on a validated submission:
an email already stored flashes and redirects to login without touching
the tables; otherwise a user row is appended with the hashed password and
`login_user` binds the session to the new id.  The third component is the
session after the request. -/
def register (form : RegisterForm) (s : DBState) (session : Option Nat) :
    Outcome × DBState × Option Nat :=
  match s.users.find? (fun u => u.email = form.email) with
  | some _ =>
      (Outcome.redirectLogin "You have already signed up with that email, log in instead!",
       s, session)
  | none =>
      let new_user : User :=
        { id := freshId (s.users.map User.id)
          email := form.email
          password := generate_password_hash form.password
          name := form.name }
      (Outcome.redirectHome, { s with users := s.users ++ [new_user] },
       some new_user.id)

/-! ## Shared demonstration inputs for concrete witnesses -/

/-- A body carrying a script element followed by an allow-listed paragraph. -/
def demoBody : List Tok :=
  [Tok.openTag "script" [], Tok.textTok "alert(1)", Tok.closeTag "script",
   Tok.openTag "p" [], Tok.textTok "hi", Tok.closeTag "p"]

/-- A validated post form using `demoBody`. -/
def demoForm : PostForm :=
  { title := "T1", subtitle := "S1", img_url := "http://x/img.png", body := demoBody }

/-- The empty database. -/
def emptyDB : DBState := { users := [], posts := [], comments := [] }

/-- The post `add_new_post` creates from `demoForm` on the empty database. -/
def demoPost : BlogPost :=
  { id := 1, title := "T1", subtitle := "S1", date := "June 01, 2025",
    body := sanitizeToks demoBody, img_url := "http://x/img.png", author_id := 1 }

/-! ## Claim theorems -/

/-- C10: the sanitizer is idempotent — `sanitize (sanitize x) = sanitize x`
for every input — and an input using only allow-listed tags and attributes
is returned unchanged. -/
theorem claim_C10_sanitizer_idempotent (x : List Tok) :
    sanitizeToks (sanitizeToks x) = sanitizeToks x ∧
    (x.all tokOK = true → sanitizeToks x = x) :=
  ⟨sanitizeToks_idem x, sanitizeToks_of_all_tokOK x⟩

theorem claim_C10_witness :
    sanitizeToks (sanitizeToks demoBody) = sanitizeToks demoBody ∧
    sanitizeToks [Tok.openTag "p" [], Tok.textTok "hi", Tok.closeTag "p"] =
      [Tok.openTag "p" [], Tok.textTok "hi", Tok.closeTag "p"] :=
  ⟨(claim_C10_sanitizer_idempotent demoBody).1,
   (claim_C10_sanitizer_idempotent
      [Tok.openTag "p" [], Tok.textTok "hi", Tok.closeTag "p"]).2 (by decide)⟩

/-- C1: for an anonymous identity or an authenticated identity with id
other than 1, `add_new_post`, `edit_post` and `delete_post` each return
the 403 outcome with the database unchanged (no row created, altered or
deleted); for the identity with id 1 the `admin_only` gate lets the
wrapped route run.  The gate acts before any mutation: the state it
returns on deny is the input state. -/
theorem claim_C1_admin_gate (who : Identity)
    (h : who = Identity.anonymous ∨ ∃ uid, who = Identity.user uid ∧ uid ≠ 1) :
    (∀ (form : PostForm) (today : String) (pid : Nat) (s : DBState),
      add_new_post who form today s = (Outcome.http403, s) ∧
      edit_post who pid form s = (Outcome.http403, s) ∧
      delete_post who pid s = (Outcome.http403, s)) ∧
    (∀ (f : Nat → DBState → Outcome × DBState) (s : DBState),
      admin_only f (Identity.user 1) s = f 1 s) := by
  constructor
  · intro form today pid s
    rcases h with h | ⟨uid, h, huid⟩
    · subst h
      exact ⟨rfl, rfl, rfl⟩
    · subst h
      refine ⟨?_, ?_, ?_⟩ <;>
        simp [add_new_post, edit_post, delete_post, admin_only, huid]
  · intro f s
    simp [admin_only]

theorem claim_C1_witness :
    delete_post (Identity.user 2) 1 emptyDB = (Outcome.http403, emptyDB) :=
  ((claim_C1_admin_gate (Identity.user 2)
      (Or.inr ⟨2, rfl, by decide⟩)).1 demoForm "d" 1 emptyDB).2.2

/-- C2: every post body persisted by `add_new_post` or `edit_post`, and
every comment text persisted by the comment branch of `show_post`, is the
output of the sanitizer on the submitted input, and in particular carries
no opening script tag; a row of the successor state is either a row of the
old state or carries exactly the sanitized submission. -/
theorem claim_C2_bodies_sanitized (who : Identity) (form : PostForm)
    (today : String) (pid : Nat) (text : List Tok) (s : DBState) :
    (∀ p ∈ (add_new_post who form today s).2.posts,
        p ∈ s.posts ∨ (p.body = sanitizeToks form.body ∧ hasScript p.body = false)) ∧
    (∀ p ∈ (edit_post who pid form s).2.posts,
        p ∈ s.posts ∨ (p.body = sanitizeToks form.body ∧ hasScript p.body = false)) ∧
    (∀ c ∈ (show_post who pid (ShowPostReq.postComment text) s).2.comments,
        c ∈ s.comments ∨ (c.text = sanitizeToks text ∧ hasScript c.text = false)) := by
  refine ⟨?_, ?_, ?_⟩
  · intro p hp
    cases who with
    | anonymous => exact Or.inl (by simpa [add_new_post, admin_only] using hp)
    | user uid =>
      by_cases h1 : uid = 1
      · subst h1
        by_cases hdup : ∃ x ∈ s.posts, x.title = form.title
        · refine Or.inl ?_
          simpa [add_new_post, admin_only, insertPost, hdup] using hp
        · have hp2 : p ∈ s.posts ∨
              p = { id := freshId (List.map BlogPost.id s.posts),
                    title := form.title, subtitle := form.subtitle,
                    date := today, body := sanitizeToks form.body,
                    img_url := form.img_url, author_id := 1 } := by
            simpa [add_new_post, admin_only, insertPost, hdup] using hp
          rcases hp2 with h | h
          · exact Or.inl h
          · subst h
            exact Or.inr ⟨rfl, sanitizeToks_no_script _⟩
      · exact Or.inl (by simpa [add_new_post, admin_only, h1] using hp)
  · intro p hp
    cases who with
    | anonymous => exact Or.inl (by simpa [edit_post, admin_only] using hp)
    | user uid =>
      by_cases h1 : uid = 1
      · subst h1
        cases hfind : s.posts.find? (fun p => p.id = pid) with
        | none => exact Or.inl (by simpa [edit_post, admin_only, hfind] using hp)
        | some q =>
          by_cases hdup : ∃ x ∈ s.posts, ¬x.id = pid ∧ x.title = form.title
          · exact Or.inl (by simpa [edit_post, admin_only, hfind, hdup] using hp)
          · have hp2 : ∃ q0 ∈ s.posts,
                (if q0.id = pid then
                  { q0 with title := form.title, subtitle := form.subtitle,
                            body := sanitizeToks form.body,
                            img_url := form.img_url }
                 else q0) = p := by
              simpa [edit_post, admin_only, hfind, hdup] using hp
            rcases hp2 with ⟨q0, hq0, hq0eq⟩
            by_cases hqid : q0.id = pid
            · rw [if_pos hqid] at hq0eq
              subst hq0eq
              exact Or.inr ⟨rfl, sanitizeToks_no_script _⟩
            · rw [if_neg hqid] at hq0eq
              subst hq0eq
              exact Or.inl hq0
      · exact Or.inl (by simpa [edit_post, admin_only, h1] using hp)
  · intro c hc
    cases who with
    | anonymous => exact Or.inl (by simpa [show_post] using hc)
    | user uid =>
      cases hfind : s.posts.find? (fun p => p.id = pid) with
      | none => exact Or.inl (by simpa [show_post, hfind] using hc)
      | some q =>
        have hc2 : c ∈ s.comments ∨
            c = { id := freshId (List.map Comment.id s.comments),
                  text := sanitizeToks text, author_id := uid,
                  post_id := q.id } := by
          simpa [show_post, hfind] using hc
        rcases hc2 with h | h
        · exact Or.inl h
        · subst h
          exact Or.inr ⟨rfl, sanitizeToks_no_script _⟩

theorem claim_C2_witness :
    demoPost ∈ emptyDB.posts ∨
    (demoPost.body = sanitizeToks demoForm.body ∧ hasScript demoPost.body = false) :=
  (claim_C2_bodies_sanitized (Identity.user 1) demoForm "June 01, 2025" 0 []
    emptyDB).1 demoPost (by decide)

/-- A stored post titled Hello World. -/
def helloPost : BlogPost :=
  { id := 1, title := "Hello World", subtitle := "s1", date := "June 01, 2025",
    body := [Tok.textTok "first"], img_url := "http://x/1.png", author_id := 1 }

/-- A database holding `helloPost` alone. -/
def helloDB : DBState := { users := [], posts := [helloPost], comments := [] }

/-- C3 counterexample: with a post titled Hello World already stored, a
second `add_new_post` by the admin with the same title hits the unique
constraint with no handler catching it — the outcome is the unhandled
IntegrityError (`serverError`), not a user-facing conflict outcome, so
the claim as stated fails at this input. -/
theorem claim_C3_counterexample :
    add_new_post (Identity.user 1)
      { title := "Hello World", subtitle := "s2", img_url := "http://x/2.png",
        body := [] } "June 02, 2025" helloDB =
      (Outcome.serverError "IntegrityError UNIQUE constraint failed blogpost.title",
       helloDB) := rfl

/-- C3 (amended): with a post already stored under the submitted title,
`add_new_post` by the admin ends in the uncaught IntegrityError of the
title unique constraint — an unhandled fault, not a user-facing
ConflictError — and the database is unchanged: the first post remains
unaffected and no second row is created. -/
theorem claim_C3_duplicate_title (s : DBState) (form : PostForm)
    (today : String) (h : ∃ p ∈ s.posts, p.title = form.title) :
    add_new_post (Identity.user 1) form today s =
      (Outcome.serverError "IntegrityError UNIQUE constraint failed blogpost.title",
       s) := by
  simp [add_new_post, admin_only, insertPost, h]

theorem claim_C3_witness :
    add_new_post (Identity.user 1)
      { title := "Hello World", subtitle := "s3", img_url := "http://x/3.png",
        body := [] } "June 03, 2025" helloDB =
      (Outcome.serverError "IntegrityError UNIQUE constraint failed blogpost.title",
       helloDB) :=
  claim_C3_duplicate_title helloDB _ _ ⟨helloPost, by decide, rfl⟩

/-- C4 counterexample: at an id matching no stored post, `show_post`
renders the page with an absent post, and `edit_post` and `delete_post`
raise uncaught faults on the missing row — none of the three returns
the NotFound outcome, so the claim as stated fails at this input. -/
theorem claim_C4_counterexample :
    (show_post (Identity.user 1) 5 ShowPostReq.get emptyDB).1 =
      Outcome.renderPost none ∧
    (edit_post (Identity.user 1) 5 demoForm emptyDB).1 =
      Outcome.serverError "AttributeError NoneType has no attribute title" ∧
    (delete_post (Identity.user 1) 5 emptyDB).1 =
      Outcome.serverError "UnmappedInstanceError delete None" ∧
    (show_post (Identity.user 1) 5 ShowPostReq.get emptyDB).1 ≠ Outcome.http404 ∧
    (edit_post (Identity.user 1) 5 demoForm emptyDB).1 ≠ Outcome.http404 ∧
    (delete_post (Identity.user 1) 5 emptyDB).1 ≠ Outcome.http404 :=
  ⟨rfl, rfl, rfl, by decide, by decide, by decide⟩

/-- C4 (amended): for every id matching no stored post the data model is
left unchanged and no handler returns the forbidden outcome for the
admin, but none returns NotFound either: `show_post` renders the page
with an absent post, while `edit_post` on a validated submission and
`delete_post` each end in an uncaught fault on the missing row. -/
theorem claim_C4_missing_post (who : Identity) (pid : Nat) (s : DBState)
    (form : PostForm) (h : s.posts.find? (fun p => p.id = pid) = none) :
    show_post who pid ShowPostReq.get s = (Outcome.renderPost none, s) ∧
    edit_post (Identity.user 1) pid form s =
      (Outcome.serverError "AttributeError NoneType has no attribute title", s) ∧
    delete_post (Identity.user 1) pid s =
      (Outcome.serverError "UnmappedInstanceError delete None", s) ∧
    (show_post who pid ShowPostReq.get s).1 ≠ Outcome.http404 ∧
    (edit_post (Identity.user 1) pid form s).1 ≠ Outcome.http404 ∧
    (delete_post (Identity.user 1) pid s).1 ≠ Outcome.http404 ∧
    (edit_post (Identity.user 1) pid form s).1 ≠ Outcome.http403 ∧
    (delete_post (Identity.user 1) pid s).1 ≠ Outcome.http403 := by
  have hshow : show_post who pid ShowPostReq.get s = (Outcome.renderPost none, s) := by
    simp [show_post, h]
  have hedit : edit_post (Identity.user 1) pid form s =
      (Outcome.serverError "AttributeError NoneType has no attribute title", s) := by
    simp [edit_post, admin_only, h]
  have hdel : delete_post (Identity.user 1) pid s =
      (Outcome.serverError "UnmappedInstanceError delete None", s) := by
    simp [delete_post, admin_only, h]
  refine ⟨hshow, hedit, hdel, ?_, ?_, ?_, ?_, ?_⟩ <;>
    simp [hshow, hedit, hdel]

theorem claim_C4_witness :
    delete_post (Identity.user 1) 7 helloDB =
      (Outcome.serverError "UnmappedInstanceError delete None", helloDB) :=
  (claim_C4_missing_post (Identity.user 1) 7 helloDB demoForm (by decide)).2.2.1

/-- The post form used for the edit witnesses. -/
def editForm : PostForm :=
  { title := "T1 edited", subtitle := "S1 edited", img_url := "http://x/4.png",
    body := [Tok.textTok "new"] }

/-- C5: for the admin, `edit_post` only ever rewrites title, subtitle,
sanitized body and image URL: every post of the successor state keeps
the id, the author reference and the original creation date of a post of
the prior state, a post whose id is not the edited one is completely
unchanged, and when the edit succeeds the targeted post is stored with
exactly the submitted mutable fields over its old author and date. -/
theorem claim_C5_edit_preserves_author_date (pid : Nat) (form : PostForm)
    (s : DBState) :
    (∀ q ∈ (edit_post (Identity.user 1) pid form s).2.posts,
      ∃ q0 ∈ s.posts, q.id = q0.id ∧ q.author_id = q0.author_id ∧
        q.date = q0.date ∧ (¬q.id = pid → q = q0)) ∧
    ((edit_post (Identity.user 1) pid form s).1 = Outcome.redirectShowPost pid →
      ∀ q0 ∈ s.posts, q0.id = pid →
        { q0 with title := form.title, subtitle := form.subtitle,
                  body := sanitizeToks form.body, img_url := form.img_url } ∈
          (edit_post (Identity.user 1) pid form s).2.posts) := by
  cases hfind : s.posts.find? (fun p => p.id = pid) with
  | none =>
    have heq : edit_post (Identity.user 1) pid form s =
        (Outcome.serverError "AttributeError NoneType has no attribute title", s) := by
      simp [edit_post, admin_only, hfind]
    rw [heq]
    refine ⟨fun q hq => ⟨q, hq, rfl, rfl, rfl, fun _ => rfl⟩, fun ho => absurd ho (by simp)⟩
  | some q =>
    by_cases hdup : ∃ x ∈ s.posts, ¬x.id = pid ∧ x.title = form.title
    · have heq : edit_post (Identity.user 1) pid form s =
          (Outcome.serverError "IntegrityError UNIQUE constraint failed blogpost.title", s) := by
        simp [edit_post, admin_only, hfind, hdup]
      rw [heq]
      refine ⟨fun q hq => ⟨q, hq, rfl, rfl, rfl, fun _ => rfl⟩, fun ho => absurd ho (by simp)⟩
    · have heq : edit_post (Identity.user 1) pid form s =
          (Outcome.redirectShowPost pid,
           { s with posts := s.posts.map (fun p =>
              if p.id = pid then
                { p with title := form.title, subtitle := form.subtitle,
                         body := sanitizeToks form.body, img_url := form.img_url }
              else p) }) := by
        simp [edit_post, admin_only, hfind, hdup]
      rw [heq]
      constructor
      · intro q' hq'
        rcases List.mem_map.mp hq' with ⟨q0, hq0, hfq⟩
        by_cases hqid : q0.id = pid
        · rw [if_pos hqid] at hfq
          subst hfq
          exact ⟨q0, hq0, rfl, rfl, rfl, fun hne => absurd hqid hne⟩
        · rw [if_neg hqid] at hfq
          subst hfq
          exact ⟨q0, hq0, rfl, rfl, rfl, fun _ => rfl⟩
      · intro _ q0 hq0 hq0id
        exact List.mem_map.mpr ⟨q0, hq0, by rw [if_pos hq0id]⟩

theorem claim_C5_witness :
    { helloPost with title := editForm.title, subtitle := editForm.subtitle,
                     body := sanitizeToks editForm.body,
                     img_url := editForm.img_url } ∈
      (edit_post (Identity.user 1) 1 editForm helloDB).2.posts :=
  (claim_C5_edit_preserves_author_date 1 editForm helloDB).2 rfl
    helloPost (by decide) rfl

/-- The first-created account, the admin. -/
def adminUser : User := { id := 1, email := "admin@x.com", password := "h", name := "Admin" }

/-- A database holding the admin account alone. -/
def adminDB : DBState := { users := [adminUser], posts := [], comments := [] }

/-- C6: a post created by `add_new_post` records `author_id` as the id of
the identity that created it — the gate admits only id 1 — and, provided
that account exists in the user table, the author reference resolves to
an existing user row; the author is never taken from the submitted form,
whose final field set has no author field. -/
theorem claim_C6_author_is_creator (form : PostForm) (today : String)
    (s : DBState) (hadmin : ∃ u ∈ s.users, u.id = 1) :
    ∀ p ∈ (add_new_post (Identity.user 1) form today s).2.posts,
      p ∈ s.posts ∨ (p.author_id = 1 ∧ ∃ u ∈ s.users, u.id = p.author_id) := by
  intro p hp
  by_cases hdup : ∃ x ∈ s.posts, x.title = form.title
  · exact Or.inl (by simpa [add_new_post, admin_only, insertPost, hdup] using hp)
  · have hp2 : p ∈ s.posts ∨
        p = { id := freshId (List.map BlogPost.id s.posts),
              title := form.title, subtitle := form.subtitle,
              date := today, body := sanitizeToks form.body,
              img_url := form.img_url, author_id := 1 } := by
      simpa [add_new_post, admin_only, insertPost, hdup] using hp
    rcases hp2 with h | h
    · exact Or.inl h
    · subst h
      exact Or.inr ⟨rfl, hadmin⟩

theorem claim_C6_witness :
    demoPost ∈ adminDB.posts ∨
    (demoPost.author_id = 1 ∧ ∃ u ∈ adminDB.users, u.id = demoPost.author_id) :=
  claim_C6_author_is_creator demoForm "June 01, 2025" adminDB
    ⟨adminUser, by decide, rfl⟩ demoPost (by decide)

/-- C7: a validated comment submission by the anonymous identity is
turned away to the login page (the forbidden outcome for comment
creation, realized as flash-and-redirect) with the database unchanged —
in particular no comment row is created; an authenticated identity
commenting on an id that resolves to a stored post gets exactly one
comment appended whose `author_id` is the requesting user's id and whose
`post_id` is that post's id. -/
theorem claim_C7_comment_creation (pid : Nat) (text : List Tok) (s : DBState) :
    show_post Identity.anonymous pid (ShowPostReq.postComment text) s =
      (Outcome.redirectLogin "You need to login or register to comment.", s) ∧
    (∀ (uid : Nat) (p : BlogPost),
      s.posts.find? (fun q => q.id = pid) = some p →
      show_post (Identity.user uid) pid (ShowPostReq.postComment text) s =
        (Outcome.redirectShowPost pid,
         { s with comments := s.comments ++
            [{ id := freshId (s.comments.map Comment.id),
               text := sanitizeToks text, author_id := uid,
               post_id := p.id }] })) := by
  constructor
  · rfl
  · intro uid p hfind
    simp [show_post, hfind]

theorem claim_C7_witness :
    show_post (Identity.user 3) 1 (ShowPostReq.postComment [Tok.textTok "nice"])
      helloDB =
      (Outcome.redirectShowPost 1,
       { helloDB with comments := [{ id := 1,
                                     text := sanitizeToks [Tok.textTok "nice"],
                                     author_id := 3, post_id := 1 }] }) :=
  (claim_C7_comment_creation 1 [Tok.textTok "nice"] helloDB).2 3 helloPost
    (by decide)

/-- C8: a comment never outlives its parent post: when `delete_post`
succeeds (redirects home) no remaining comment row references the
deleted id, and — the reject-if-referenced branch realized by the
declared foreign-key constraint, no cascade being configured — deleting
a stored post that still has a comment is rejected by the storage layer
(the uncaught IntegrityError outcome) with the database, post included,
unchanged. -/
theorem claim_C8_referential_integrity (pid : Nat) (s : DBState) :
    ((delete_post (Identity.user 1) pid s).1 = Outcome.redirectHome →
      ∀ c ∈ (delete_post (Identity.user 1) pid s).2.comments,
        ¬c.post_id = pid) ∧
    (∀ p ∈ s.posts, p.id = pid → ∀ c ∈ s.comments, c.post_id = pid →
      delete_post (Identity.user 1) pid s =
        (Outcome.serverError "IntegrityError FOREIGN KEY constraint failed comments.post_id",
         s)) := by
  cases hfind : s.posts.find? (fun p => p.id = pid) with
  | none =>
    have heq : delete_post (Identity.user 1) pid s =
        (Outcome.serverError "UnmappedInstanceError delete None", s) := by
      simp [delete_post, admin_only, hfind]
    constructor
    · rw [heq]
      intro ho
      exact absurd ho (by simp)
    · intro p hp hpid c hc hcpid
      have hnone := List.find?_eq_none.mp hfind p hp
      simp [hpid] at hnone
  | some q =>
    have hqid : q.id = pid := by
      have := List.find?_some hfind
      simpa using this
    by_cases hcom : ∃ x ∈ s.comments, x.post_id = q.id
    · have heq : delete_post (Identity.user 1) pid s =
          (Outcome.serverError "IntegrityError FOREIGN KEY constraint failed comments.post_id",
           s) := by
        simp [delete_post, admin_only, hfind, hcom]
      constructor
      · rw [heq]
        intro ho
        exact absurd ho (by simp)
      · intro _ _ _ _ _ _
        exact heq
    · have heq : delete_post (Identity.user 1) pid s =
          (Outcome.redirectHome,
           { s with posts := s.posts.filter (fun r => ¬r.id = pid) }) := by
        simp [delete_post, admin_only, hfind, hcom]
      constructor
      · rw [heq]
        intro _ c hc hcpid
        exact hcom ⟨c, hc, hcpid.trans hqid.symm⟩
      · intro p hp hpid c hc hcpid
        exact absurd ⟨c, hc, hcpid.trans hqid.symm⟩ hcom

/-- A comment referencing `helloPost`. -/
def commentRow : Comment :=
  { id := 1, text := [Tok.textTok "nice"], author_id := 3, post_id := 1 }

/-- A database where `helloPost` has one comment. -/
def commentDB : DBState :=
  { users := [], posts := [helloPost], comments := [commentRow] }

theorem claim_C8_witness :
    delete_post (Identity.user 1) 1 commentDB =
      (Outcome.serverError "IntegrityError FOREIGN KEY constraint failed comments.post_id",
       commentDB) :=
  (claim_C8_referential_integrity 1 commentDB).2 helloPost (by decide) rfl
    commentRow (by decide) rfl

/-- C9: registering with an email already stored flashes the distinct
already-registered message and redirects to login with the database and
session untouched — no user row is created and the stored row, password
included, is unchanged; with a fresh email exactly one user row is
appended whose stored credential is the hasher's output (and never the
plaintext password itself), and the session is bound to the new id. -/
theorem claim_C9_register (form : RegisterForm) (s : DBState)
    (session : Option Nat) :
    (∀ u ∈ s.users, u.email = form.email →
      register form s session =
        (Outcome.redirectLogin "You have already signed up with that email, log in instead!",
         s, session)) ∧
    (s.users.find? (fun u => u.email = form.email) = none →
      register form s session =
        (Outcome.redirectHome,
         { s with users := s.users ++
            [{ id := freshId (s.users.map User.id), email := form.email,
               password := generate_password_hash form.password,
               name := form.name }] },
         some (freshId (s.users.map User.id))) ∧
      generate_password_hash form.password ≠ form.password) := by
  constructor
  · intro u hu hemail
    cases hfind : s.users.find? (fun v => v.email = form.email) with
    | none =>
      have hnone := List.find?_eq_none.mp hfind u hu
      simp [hemail] at hnone
    | some v =>
      simp [register, hfind]
  · intro hfind
    refine ⟨by simp [register, hfind], ?_⟩
    intro hcontra
    have hlen : ("pbkdf2:sha256$salt$" ++ form.password ++ "$digest").length =
        form.password.length := congrArg String.length hcontra
    rw [String.length_append, String.length_append] at hlen
    have h1 : ("pbkdf2:sha256$salt$" : String).length = 19 := rfl
    have h2 : ("$digest" : String).length = 7 := rfl
    rw [h1, h2] at hlen
    omega

theorem claim_C9_witness :
    register { email := "admin@x.com", password := "longenough1", name := "B" }
      adminDB none =
      (Outcome.redirectLogin "You have already signed up with that email, log in instead!",
       adminDB, none) :=
  (claim_C9_register { email := "admin@x.com", password := "longenough1", name := "B" }
      adminDB none).1 adminUser (by decide) rfl
